import Mathlib

/-!
Shallow embedding of the fleet_control desktop client's record-normalization
and table-synchronization layer (src/ui/vehicle_details.py,
src/ui/vehicle_selection.py, src/ui/add_hidden_cost_form.py,
src/ui/add_maintenance_form.py, src/ui/delete_dialog.py), together with
theorems settling the specification's claims about it.

JSON-ish values exchanged with the remote API are modelled by `Value`
(string, integer, or Python `None`); a Python dict is an association list
`RawRecord` with unique keys, where lookup returns the first binding.
-/

/-- A scalar value as it appears in a parsed JSON record: a string, an
integer, or Python's `None` (JSON `null`). -/
inductive Value where
  | vStr : String → Value
  | vInt : Int → Value
  | vNull : Value
deriving DecidableEq, Repr

/-- Python truthiness of a `Value` (`bool(v)`): empty string and zero are
falsy, `None` is falsy. -/
def truthy : Value → Bool
  | Value.vStr s => s ≠ ""
  | Value.vInt n => n ≠ 0
  | Value.vNull => false

/-- Python `str(v)` as applied when rendering a cell (`QTableWidgetItem(str(x))`). -/
def pyStr : Value → String
  | Value.vStr s => s
  | Value.vInt n => toString n
  | Value.vNull => "None"

/-- A Python dict as received from the API: association list keyed by
strings.  Keys are unique in a dict, and `List.lookup` returns the first
binding, matching `d[k]`. -/
abbrev RawRecord := List (String × Value)

/-- Python `k in d` for a dict. -/
def hasKey (d : RawRecord) (k : String) : Bool :=
  (List.lookup k d).isSome

/-- Python `k in d and d[k] is not None`: the key is present and bound to a
non-`None` value. -/
def presentNonNull (d : RawRecord) (k : String) : Bool :=
  match List.lookup k d with
  | some v => v ≠ Value.vNull
  | none => false

/-- An element of a fetched record list: either a mapping (dict) or some
non-mapping JSON value (bare scalar, null, ...). -/
inductive Rec where
  | dict : RawRecord → Rec
  | other : Value → Rec
deriving DecidableEq, Repr

/-- Python `item if isinstance(item, dict) else dict()` (an empty dict) — the coercion applied to every
list element before field extraction in the `on_*_loaded` handlers. -/
def asDict : Rec → RawRecord
  | Rec.dict d => d
  | Rec.other _ => []

/-- The local helper `get_any(d, keys, default="")` defined identically in
`on_maintenance_loaded`, `on_purchases_loaded` and `on_hidden_costs_loaded`
(src/ui/vehicle_details.py): scan the alias keys in order and return the
first value that is present and not `None`, else the default. -/
def get_any (d : RawRecord) (keys : List String) (dflt : Value := Value.vStr "") : Value :=
  match keys with
  | [] => dflt
  | k :: rest =>
    match List.lookup k d with
    | some v => if v = Value.vNull then get_any d rest dflt else v
    | none => get_any d rest dflt

example : get_any [("job", Value.vStr "oil"), ("title", Value.vStr "t")] ["job", "title", "task"] = Value.vStr "oil" := by decide

example : get_any [("job", Value.vNull), ("title", Value.vStr "t")] ["job", "title", "task"] = Value.vStr "t" := by decide

example : get_any [] ["job", "title"] = Value.vStr "" := by decide

/-! ## Alias tables and row rendering (src/ui/vehicle_details.py) -/

/-- Hour aliases checked by `on_maintenance_loaded` (lines 531 and 552). -/
def hourAliasKeys : List String := ["hours", "hour", "engine_hours"]

/-- Mileage aliases checked by `on_maintenance_loaded` (lines 534 and 553). -/
def mileageAliasKeys : List String := ["mileage", "miles", "milage", "odometer"]

/-- One rendered maintenance table row: the seven cell texts produced by
`on_maintenance_loaded` for one list element (lines 542-566).  The Tracking
cell is Python `get_any(rec, hour_aliases) or get_any(rec, mileage_aliases)`:
the hour value when truthy, else the mileage value. -/
def renderMaintRow (item : Rec) : List String :=
  let r := asDict item
  let item_id := get_any r ["id", "_id"]
  let job := get_any r ["job", "title", "task"]
  let date_started := get_any r ["date_started", "started", "start_date"]
  let date_completed := get_any r ["date_completed", "completed", "end_date"]
  let hoursVal := get_any r hourAliasKeys
  let mileageVal := get_any r mileageAliasKeys
  let tracking_value := if truthy hoursVal then hoursVal else mileageVal
  let cost := get_any r ["cost", "price", "amount"]
  let notes := get_any r ["notes", "note", "details"]
  [pyStr item_id, pyStr job, pyStr date_started, pyStr date_completed,
   pyStr tracking_value, pyStr cost, pyStr notes]

/-- One rendered purchases table row: the six cell texts produced by
`on_purchases_loaded` for one list element (lines 280-295). -/
def renderPurchRow (item : Rec) : List String :=
  let r := asDict item
  let item_id := get_any r ["id", "_id"]
  let itm := get_any r ["item", "name", "part"]
  let date_purchased := get_any r ["date_purchased", "purchased", "date"]
  let installed := get_any r ["installed", "is_installed", "status"]
  let cost := get_any r ["cost", "price", "amount"]
  let store := get_any r ["store", "vendor", "shop"]
  [pyStr item_id, pyStr itm, pyStr date_purchased, pyStr installed,
   pyStr cost, pyStr store]

/-- One rendered hidden-costs table row: the five cell texts produced by
`on_hidden_costs_loaded` for one list element (lines 603-616). -/
def renderHiddenCostRow (item : Rec) : List String :=
  let r := asDict item
  let item_id := get_any r ["id", "_id"]
  let name := get_any r ["name", "title", "item_name"]
  let amount := get_any r ["amount", "cost", "price"]
  let description := get_any r ["description", "desc", "details"]
  let date := get_any r ["date", "date_incurred", "created_date"]
  [pyStr item_id, pyStr name, pyStr amount, pyStr description, pyStr date]

/-! ## Table synchronization state -/

/-- The per-table screen state the fetch handlers act on: the rendered rows
(each row the list of its cell texts) and the stored raw-record sequence
(`self.purchases_data` / `self.hidden_costs_data`) used later to resolve a
selected row for update/delete. -/
structure TableState where
  rows : List (List String)
  stored : List Rec
deriving DecidableEq, Repr

/-- State touched by `on_maintenance_loaded`: rendered rows, stored
`self.maintenance_data`, the persistent `self.tracking_type` (initialized to
"Mileage" in `__init__`), and the Tracking column header. -/
structure MaintState where
  rows : List (List String)
  stored : List Rec
  tracking_type : String
  header : String
deriving DecidableEq, Repr

/-- Handler `on_purchases_loaded(items)` (lines 264-295): clear the table; on an
empty list show the single informational row and return early — note the
early return happens before `self.purchases_data = items`, so the stored
sequence is left unchanged in that case; otherwise store `items` and render
one row per element. -/
def on_purchases_loaded (s : TableState) (items : List Rec) : TableState :=
  match items with
  | [] => { s with rows := [["No purchases"]] }
  | _ => { rows := items.map renderPurchRow, stored := items }

/-- Handler `on_hidden_costs_loaded(items)` (lines 587-616), same shape as
`on_purchases_loaded`. -/
def on_hidden_costs_loaded (s : TableState) (items : List Rec) : TableState :=
  match items with
  | [] => { s with rows := [["No hidden costs"]] }
  | _ => { rows := items.map renderHiddenCostRow, stored := items }

/-- Handler `on_maintenance_loaded(items)` (lines 510-566): clear the table; on an
empty list show the informational row and return early (stored sequence,
tracking type and header all unchanged); otherwise store `items`, infer the
tracking header/type from the first element (a non-dict first element is
coerced to `{}`), set the headers, and render one row per element.  In the
no-alias branch the local `tracking_header` keeps its initial value
"Tracking" and `self.tracking_type` is not assigned. -/
def on_maintenance_loaded (s : MaintState) (items : List Rec) : MaintState :=
  match items with
  | [] => { s with rows := [["No maintenance records"]] }
  | first :: _ =>
    let fi := asDict first
    let hdr_tt : String × String :=
      if hourAliasKeys.any (fun k => hasKey fi k) then ("Hours", "Hours")
      else if mileageAliasKeys.any (fun k => hasKey fi k) then ("Mileage", "Mileage")
      else ("Tracking", s.tracking_type)
    { rows := items.map renderMaintRow, stored := items,
      tracking_type := hdr_tt.2, header := hdr_tt.1 }

example :
    (on_maintenance_loaded ⟨[], [], "Mileage", "Tracking"⟩
      [Rec.dict [("odometer", Value.vInt 5)]]).tracking_type = "Mileage" := by decide

example :
    (on_maintenance_loaded ⟨[], [], "Hours", "Hours"⟩
      [Rec.dict [("job", Value.vStr "x")]]).tracking_type = "Hours" := by decide

/-! ## Vehicle-name normalization and request construction -/

/-- Python `name.replace(" ", "_").replace(".", "_").lower()` — the normalization
applied before embedding the vehicle name in a URL.  Both replaced patterns
are single characters and `lower` is ASCII case-mapping, so the chain is a
character-wise map. -/
def normalizeVehicleName (name : String) : String :=
  String.mk (name.toList.map (fun c => if c = ' ' ∨ c = '.' then '_' else c.toLower))

example : normalizeVehicleName "My Car" = "my_car" := by decide

example : normalizeVehicleName "F.150 Work Truck" = "f_150_work_truck" := by decide

def maintBase : String := "http://theconeportal.net:5000/fleet_control/vehicle_maintenance"

def purchBase : String := "http://theconeportal.net:5000/fleet_control/vehicle_purchases"

def hiddenBase : String := "http://theconeportal.net:5000/fleet_control/vehicle_hidden_costs"

def vehicleListUrl : String := "http://theconeportal.net:5000/fleet_control/vehicle_list"

/-- The `params` dict built identically at the top of `load_purchases`,
`load_maintenance` and `load_hidden_costs`: the vehicle's `name` value when
the vehicle is a dict with a `name` key, nothing when the key is absent, and
`str(vehicle)` otherwise.  No normalization is applied here. -/
def vehicleParams (vehicle : Rec) : List (String × Value) :=
  match vehicle with
  | Rec.dict d =>
    if hasKey d "name" then [("vehicle_name", (List.lookup "name" d).getD Value.vNull)]
    else []
  | Rec.other v => [("vehicle_name", Value.vStr (pyStr v))]

/-- A GET request as handed to a fetch worker: the URL path, the query
pairs already embedded in the URL string, and the `params` dict passed to
`requests.get` (which appends them to the URL's query). -/
structure GetRequest where
  path : String
  urlQuery : List (String × String)
  params : List (String × Value)
deriving DecidableEq, Repr

/-- Method `load_purchases` (lines 250-262): plain base URL, raw `params`. -/
def load_purchases_request (vehicle : Rec) : GetRequest :=
  { path := purchBase, urlQuery := [], params := vehicleParams vehicle }

/-- Method `load_hidden_costs` (lines 573-585): plain base URL, raw `params`. -/
def load_hidden_costs_request (vehicle : Rec) : GetRequest :=
  { path := hiddenBase, urlQuery := [], params := vehicleParams vehicle }

/-- Method `load_maintenance` (lines 494-508): the URL string embeds the
normalized `params["vehicle_name"]`, while the raw `params` dict is still
passed to the worker alongside it.  `none` models the `KeyError` /
`AttributeError` raised when `params` has no string `vehicle_name`. -/
def load_maintenance_request (vehicle : Rec) : Option GetRequest :=
  match List.lookup "vehicle_name" (vehicleParams vehicle) with
  | some (Value.vStr n) =>
    some { path := maintBase,
           urlQuery := [("vehicle_name", normalizeVehicleName n)],
           params := vehicleParams vehicle }
  | _ => none

/-! ## Fetch workers: payload normalization (list coercion) -/

/-- A parsed JSON response body: either a JSON array of records or a single
non-array value. -/
inductive Json where
  | list : List Rec → Json
  | nonList : Rec → Json
deriving DecidableEq, Repr

/-- The coercion in `MaintenanceFetchWorker.run`, `PurchasesFetchWorker.run`
and `HiddenCostsFetchWorker.run`: `if not isinstance(data, list): data = [data]`. -/
def coerceToList : Json → List Rec
  | Json.list xs => xs
  | Json.nonList r => [r]

/-- Successful payload emitted by `MaintenanceFetchWorker.run` (lines 42-50). -/
def maintenanceFetchResult (j : Json) : List Rec := coerceToList j

/-- Successful payload emitted by `PurchasesFetchWorker.run` (lines 65-72). -/
def purchasesFetchResult (j : Json) : List Rec := coerceToList j

/-- Successful payload emitted by `HiddenCostsFetchWorker.run` (lines 87-94). -/
def hiddenCostsFetchResult (j : Json) : List Rec := coerceToList j

/-- Successful payload emitted by `VehicleFetchWorker.run`
(src/ui/vehicle_selection.py lines 19-25): `vehicles = response.json()` is
emitted as-is, with no list coercion. -/
def vehicleFetchResult (j : Json) : Json := j

/-! ## Mutation dispatch (update / delete / create) -/

/-- Terminal outcome of a click handler that may dispatch a request:
`warned msg` — blocked client-side by a `QMessageBox.warning`, nothing sent;
`cancelled` — the confirmation dialog was rejected, nothing sent;
`uncaughtError` — an uncaught exception (`TypeError` from `"id" in
non-mapping`, `KeyError` from a missing dict key) aborts the
slot, nothing sent;
`dispatch url body` — a worker is started with the given URL and JSON body. -/
inductive Outcome where
  | warned : String → Outcome
  | cancelled : Outcome
  | uncaughtError : Outcome
  | dispatch : String → List (String × Value) → Outcome
deriving DecidableEq, Repr

/-- The JSON body of a dispatched outcome, `none` when nothing was sent. -/
def dispatchedBody : Outcome → Option (List (String × Value))
  | Outcome.dispatch _ b => some b
  | _ => none

/-- The URL of a dispatched outcome, `none` when nothing was sent. -/
def dispatchedUrl : Outcome → Option String
  | Outcome.dispatch u _ => some u
  | _ => none

/-- Whether the outcome dispatched a request at all. -/
def isDispatched : Outcome → Bool
  | Outcome.dispatch _ _ => true
  | _ => false

/-- Whether the outcome was blocked by a warning message box. -/
def isWarned : Outcome → Bool
  | Outcome.warned _ => true
  | _ => false

/-- The update body built by `update_maintenance` (lines 404-420) from the
rendered cell texts of the selected row.  A missing cell reads as "".  The
tracking cell (index 4) is stored under `hours` or `mileage` depending on
`self.tracking_type`; keys are listed in the dict's insertion order. -/
def update_maintenance_payload (tracking_type : String) (cells : List String) :
    List (String × Value) :=
  [("id", Value.vStr (cells.getD 0 "")), ("job", Value.vStr (cells.getD 1 "")),
   ("date_started", Value.vStr (cells.getD 2 "")),
   ("date_completed", Value.vStr (cells.getD 3 "")),
   (if tracking_type = "Hours" then "hours" else "mileage",
    Value.vStr (cells.getD 4 "")),
   ("cost", Value.vStr (cells.getD 5 "")), ("notes", Value.vStr (cells.getD 6 ""))]

/-- The update body built by `update_purchase` (lines 449-456) from the
rendered cell texts of the selected row. -/
def update_purchase_payload (cells : List String) : List (String × Value) :=
  [("id", Value.vStr (cells.getD 0 "")), ("item", Value.vStr (cells.getD 1 "")),
   ("date_purchased", Value.vStr (cells.getD 2 "")),
   ("installed", Value.vStr (cells.getD 3 "")),
   ("cost", Value.vStr (cells.getD 4 "")), ("store", Value.vStr (cells.getD 5 ""))]

/-- The update body built by `update_hidden_cost` (lines 657-663). -/
def update_hidden_cost_payload (cells : List String) : List (String × Value) :=
  [("id", Value.vStr (cells.getD 0 "")), ("name", Value.vStr (cells.getD 1 "")),
   ("amount", Value.vStr (cells.getD 2 "")),
   ("description", Value.vStr (cells.getD 3 "")),
   ("date", Value.vStr (cells.getD 4 ""))]

/-- Method `update_maintenance` (lines 387-429).  `selectedRows` is the list of
selected row indices; `vehicleName` is `self.vehicle["name"]`.  Validation:
a selection must exist, the row must index into `self.maintenance_data`,
and the stored record must have an `id` (an `in` test on a non-mapping
record raises `TypeError`).  On success the worker is started with the id
(the rendered id cell's text) embedded in the URL and the cell-text body. -/
def update_maintenance (vehicleName tracking_type : String)
    (stored : List Rec) (rows : List (List String))
    (selectedRows : List Nat) : Outcome :=
  match selectedRows with
  | [] => Outcome.warned "No Selection"
  | row :: _ =>
    if stored.length ≤ row then Outcome.warned "Invalid Selection"
    else
      match stored.getD row (Rec.other Value.vNull) with
      | Rec.other _ => Outcome.uncaughtError
      | Rec.dict d =>
        if hasKey d "id" = false then Outcome.warned "No ID"
        else
          let cells := rows.getD row []
          Outcome.dispatch
            (maintBase ++ "?vehicle_name=" ++ normalizeVehicleName vehicleName
              ++ "&id=" ++ cells.getD 0 "")
            (update_maintenance_payload tracking_type cells)

/-- Method `update_purchase` (lines 431-465), same control flow over the purchases
table. -/
def update_purchase (vehicleName : String) (s : TableState)
    (selectedRows : List Nat) : Outcome :=
  match selectedRows with
  | [] => Outcome.warned "No Selection"
  | row :: _ =>
    if s.stored.length ≤ row then Outcome.warned "Invalid Selection"
    else
      match s.stored.getD row (Rec.other Value.vNull) with
      | Rec.other _ => Outcome.uncaughtError
      | Rec.dict d =>
        if hasKey d "id" = false then Outcome.warned "No ID"
        else
          let cells := s.rows.getD row []
          Outcome.dispatch
            (purchBase ++ "?vehicle_name=" ++ normalizeVehicleName vehicleName
              ++ "&id=" ++ cells.getD 0 "")
            (update_purchase_payload cells)

/-- Method `update_hidden_cost` (lines 639-672), same control flow over the hidden
costs table. -/
def update_hidden_cost (vehicleName : String) (s : TableState)
    (selectedRows : List Nat) : Outcome :=
  match selectedRows with
  | [] => Outcome.warned "No Selection"
  | row :: _ =>
    if s.stored.length ≤ row then Outcome.warned "Invalid Selection"
    else
      match s.stored.getD row (Rec.other Value.vNull) with
      | Rec.other _ => Outcome.uncaughtError
      | Rec.dict d =>
        if hasKey d "id" = false then Outcome.warned "No ID"
        else
          let cells := s.rows.getD row []
          Outcome.dispatch
            (hiddenBase ++ "?vehicle_name=" ++ normalizeVehicleName vehicleName
              ++ "&id=" ++ cells.getD 0 "")
            (update_hidden_cost_payload cells)

/-- Python falsiness of a selected record (`if not self.selected_...`). -/
def recFalsy : Rec → Bool
  | Rec.dict d => d.isEmpty
  | Rec.other v => !truthy v

/-- Shared control flow of `delete_maintenance` (lines 325-348),
`delete_purchase` (lines 350-373) and `delete_hidden_cost` (lines 674-697),
parameterized by the resource base URL.  `selected` is the tracked selected
record (`None` before any selection); `accepted` tells whether the
confirmation dialog was accepted.  On dispatch, the DELETE body is the
record itself (`data = dict(selected)`), and the URL embeds the normalized
vehicle name and the record's `id` rendered by the f-string (`str`). -/
def delete_record (base vehicleName : String) (selected : Option Rec)
    (accepted : Bool) : Outcome :=
  match selected with
  | none => Outcome.warned "No Selection"
  | some r =>
    if recFalsy r then Outcome.warned "No Selection"
    else
      match r with
      | Rec.other _ => Outcome.uncaughtError
      | Rec.dict d =>
        if hasKey d "id" = false then Outcome.warned "No ID"
        else if accepted then
          Outcome.dispatch
            (base ++ "?vehicle_name=" ++ normalizeVehicleName vehicleName
              ++ "&id=" ++ pyStr ((List.lookup "id" d).getD Value.vNull))
            d
        else Outcome.cancelled

/-- Method `delete_maintenance` (lines 325-348). -/
def delete_maintenance (vehicleName : String) (selected : Option Rec)
    (accepted : Bool) : Outcome :=
  delete_record maintBase vehicleName selected accepted

/-- Method `delete_purchase` (lines 350-373). -/
def delete_purchase (vehicleName : String) (selected : Option Rec)
    (accepted : Bool) : Outcome :=
  delete_record purchBase vehicleName selected accepted

/-- Method `delete_hidden_cost` (lines 674-697). -/
def delete_hidden_cost (vehicleName : String) (selected : Option Rec)
    (accepted : Bool) : Outcome :=
  delete_record hiddenBase vehicleName selected accepted

/-! ## Form submission (src/ui/add_hidden_cost_form.py, src/ui/add_maintenance_form.py) -/

/-- A character stripped by Python `str.strip()` (ASCII whitespace). -/
def isSpaceChar (c : Char) : Bool :=
  c = ' ' || c = '\t' || c = '\n' || c = '\r' || c = '\x0b' || c = '\x0c'

/-- Python `s.strip()`. -/
def pyStrip (s : String) : String :=
  String.mk (((s.toList.dropWhile isSpaceChar).reverse.dropWhile isSpaceChar).reverse)

/-- Drop one leading sign character. -/
def dropSignChar (l : List Char) : List Char :=
  match l with
  | c :: rest => if c = '+' || c = '-' then rest else l
  | [] => []

/-- Acceptance of a finite float literal body: `digits [. digits]` or
`. digits`, optionally followed by an exponent `e [sign] digits`.  (The
input has already been lowercased and its sign dropped.) -/
def isFiniteFloatBody (l : List Char) : Bool :=
  let mant := l.takeWhile (fun c => c != 'e')
  let expl := l.dropWhile (fun c => c != 'e')
  let ip := mant.takeWhile Char.isDigit
  let rest2 := mant.dropWhile Char.isDigit
  let mantOk :=
    match rest2 with
    | [] => !ip.isEmpty
    | '.' :: fp => (!ip.isEmpty || !fp.isEmpty) && fp.all Char.isDigit
    | _ => false
  match expl with
  | [] => mantOk
  | _ :: ex =>
    let ed := dropSignChar ex
    mantOk && !ed.isEmpty && ed.all Char.isDigit

/-- Whether CPython's `float(s)` succeeds: optional surrounding whitespace
and sign, then a finite literal or `inf`/`infinity`/`nan` (case
insensitive).  Models the builtin called by `submit_hidden_cost`; digit-group
underscores are not modelled. -/
def isPyFloat (s : String) : Bool :=
  let body := dropSignChar ((pyStrip s).toList.map Char.toLower)
  body == "inf".toList || body == "infinity".toList || body == "nan".toList
    || isFiniteFloatBody body

example : isPyFloat "12.50" = true := by decide

example : isPyFloat "FREE" = false := by decide

example : isPyFloat "" = false := by decide

/-- Method `submit_hidden_cost` (src/ui/add_hidden_cost_form.py lines 120-152):
collect the stripped form texts, require a non-empty name and cost, require
the cost to parse as a float, then dispatch a POST with the normalized
vehicle name in the URL. -/
def submit_hidden_cost (vehicleName name cost description date : String) : Outcome :=
  let data : List (String × Value) :=
    [("name", Value.vStr (pyStrip name)), ("cost", Value.vStr (pyStrip cost)),
     ("description", Value.vStr (pyStrip description)),
     ("date", Value.vStr (pyStrip date))]
  if pyStrip name = "" then Outcome.warned "Name is required"
  else if pyStrip cost = "" then Outcome.warned "Cost is required"
  else if isPyFloat (pyStrip cost) = false then
    Outcome.warned "Cost must be a valid number"
  else
    Outcome.dispatch
      (hiddenBase ++ "?vehicle_name=" ++ normalizeVehicleName vehicleName) data

/-- Handler `on_free_checkbox_changed` (src/ui/add_maintenance_form.py lines
144-154): checking the FREE box (state 2) overwrites the cost input with the
literal text "FREE" (and disables it); unchecking clears it. -/
def on_free_checkbox_changed (state : Nat) : String :=
  if state = 2 then "FREE" else ""

/-- Method `submit_maintenance` (src/ui/add_maintenance_form.py lines 156-194):
collect the stripped form texts, store the tracking input under `hours` or
`mileage` according to the form's tracking type, append the vehicle
identifiers, require only a non-empty job description, then dispatch a POST
with the normalized vehicle name in the URL.  The cost field — including the
literal "FREE" written by the checkbox — is never validated.  A vehicle dict
without a string `name` raises (`KeyError`/`AttributeError`) while building
the URL. -/
def submit_maintenance (vehicle : Rec)
    (tracking_type job date_started date_completed tracking cost notes : String) :
    Outcome :=
  let base : List (String × Value) :=
    [("job", Value.vStr (pyStrip job)),
     ("date_started", Value.vStr (pyStrip date_started)),
     ("date_completed", Value.vStr (pyStrip date_completed)),
     ("cost", Value.vStr (pyStrip cost)),
     ("notes", Value.vStr (pyStrip notes))]
  let withTracking := base ++
    [(if tracking_type = "Hours" then "hours" else "mileage",
      Value.vStr (pyStrip tracking))]
  let data :=
    match vehicle with
    | Rec.dict d =>
      withTracking
        ++ (if hasKey d "name" then
              [("vehicle_name", (List.lookup "name" d).getD Value.vNull)]
            else [])
        ++ (if hasKey d "id" then
              [("vehicle_id", (List.lookup "id" d).getD Value.vNull)]
            else [])
    | Rec.other v => withTracking ++ [("vehicle_name", Value.vStr (pyStr v))]
  if pyStrip job = "" then Outcome.warned "Job description is required"
  else
    match List.lookup "vehicle_name" data with
    | some (Value.vStr n) =>
      Outcome.dispatch
        (maintBase ++ "?vehicle_name=" ++ normalizeVehicleName n) data
    | _ => Outcome.uncaughtError

/-! ## Helper lemmas -/

/-- Scanning skips an alias key that is absent or bound to `None`. -/
theorem get_any_cons_skip (d : RawRecord) (k : String) (keys : List String)
    (dflt : Value) (h : presentNonNull d k = false) :
    get_any d (k :: keys) dflt = get_any d keys dflt := by
  cases hl : List.lookup k d with
  | none => simp [get_any, hl]
  | some v =>
    have hv : v = Value.vNull := by
      unfold presentNonNull at h
      rw [hl] at h
      simpa using h
    simp [get_any, hl, hv]

/-- Scanning stops at an alias key bound to a non-`None` value. -/
theorem get_any_hit (d : RawRecord) (k : String) (keys : List String)
    (v dflt : Value) (hk : List.lookup k d = some v) (hv : v ≠ Value.vNull) :
    get_any d (k :: keys) dflt = v := by
  unfold get_any
  rw [hk]
  simp [hv]

/-- When no alias key is present with a non-`None` value, `get_any` returns
the default. -/
theorem get_any_default (d : RawRecord) (keys : List String) (dflt : Value)
    (h : ∀ k ∈ keys, presentNonNull d k = false) :
    get_any d keys dflt = dflt := by
  induction keys with
  | nil => rfl
  | cons k rest ih =>
    rw [get_any_cons_skip d k rest dflt (h k (by simp))]
    exact ih (fun kp hkp => h kp (by simp [hkp]))

/-! ## Claims -/

/-- C1: For every raw record and every ordered alias list, `get_any`
returns the value of the first alias key that is present in the record with
a non-null value, and returns the caller-supplied default when no alias is
present with a non-null value; in particular, for a record with both `job`
and `title` set, the `job` value is returned under the job alias list
`["job", "title", "task"]`.  (The default argument defaults to the empty
string in the source, written `dflt := Value.vStr ""` in the embedding.) -/
theorem claim_C1_get_any_first_alias (d : RawRecord) (dflt : Value) :
    (∀ pre k post v, List.lookup k d = some v → v ≠ Value.vNull →
        (∀ kp ∈ pre, presentNonNull d kp = false) →
        get_any d (pre ++ k :: post) dflt = v)
    ∧ (∀ keys, (∀ k ∈ keys, presentNonNull d k = false) →
        get_any d keys dflt = dflt)
    ∧ (∀ vj vt, vj ≠ Value.vNull → vt ≠ Value.vNull →
        get_any [("job", vj), ("title", vt)] ["job", "title", "task"] dflt = vj) := by
  refine ⟨?_, ?_, ?_⟩
  · intro pre k post v hk hv hpre
    induction pre with
    | nil => exact get_any_hit d k post v dflt hk hv
    | cons kp pre ih =>
      rw [List.cons_append,
        get_any_cons_skip d kp _ dflt (hpre kp (by simp))]
      exact ih (fun x hx => hpre x (by simp [hx]))
  · intro keys h
    exact get_any_default d keys dflt h
  · intro vj vt hj _
    exact get_any_hit _ "job" _ vj dflt rfl hj

/-- Witness for C1: on a concrete record carrying both `job` and `title`,
the normalizer returns the `job` value. -/
theorem claim_C1_witness :
    get_any [("job", Value.vStr "oil change"), ("title", Value.vStr "tune-up")]
      ["job", "title", "task"] (Value.vStr "") = Value.vStr "oil change" :=
  (claim_C1_get_any_first_alias
      [("job", Value.vStr "oil change"), ("title", Value.vStr "tune-up")]
      (Value.vStr "")).2.2 (Value.vStr "oil change") (Value.vStr "tune-up")
    (by decide) (by decide)

/-- C2 counterexample: the claim says the classification "defaults to
Mileage" when the first record contains neither hour- nor mileage-alias
keys, but `self.tracking_type` is simply not assigned in that branch: with
a prior classification of "Hours", a fetched list whose first record has
only a `job` key leaves the tracking type at "Hours", not "Mileage". -/
theorem claim_C2_counterexample :
    (on_maintenance_loaded ⟨[], [], "Hours", "Hours"⟩
        [Rec.dict [("job", Value.vStr "oil change")]]).tracking_type
      ≠ "Mileage" := by decide

/-- C2 (amended): for every fetched non-empty maintenance list, the
classification is computed from the first record only: if it contains any
hour-alias key the tracking type and the table header become "Hours"; else
if it contains any mileage-alias key they become "Mileage"; else the header
is set to the generic "Tracking" and the tracking type retains its previous
value (which is "Mileage" initially, from `__init__`). -/
theorem claim_C2_tracking_inference (s : MaintState) (first : Rec)
    (rest : List Rec) :
    (hourAliasKeys.any (fun k => hasKey (asDict first) k) = true →
        (on_maintenance_loaded s (first :: rest)).tracking_type = "Hours"
        ∧ (on_maintenance_loaded s (first :: rest)).header = "Hours")
    ∧ (hourAliasKeys.any (fun k => hasKey (asDict first) k) = false →
        mileageAliasKeys.any (fun k => hasKey (asDict first) k) = true →
        (on_maintenance_loaded s (first :: rest)).tracking_type = "Mileage"
        ∧ (on_maintenance_loaded s (first :: rest)).header = "Mileage")
    ∧ (hourAliasKeys.any (fun k => hasKey (asDict first) k) = false →
        mileageAliasKeys.any (fun k => hasKey (asDict first) k) = false →
        (on_maintenance_loaded s (first :: rest)).tracking_type = s.tracking_type
        ∧ (on_maintenance_loaded s (first :: rest)).header = "Tracking") := by
  refine ⟨?_, ?_, ?_⟩
  · intro h
    constructor <;> simp [on_maintenance_loaded, h]
  · intro h1 h2
    constructor <;> simp [on_maintenance_loaded, h1, h2]
  · intro h1 h2
    constructor <;> simp [on_maintenance_loaded, h1, h2]

/-- Witness for C2: a first record carrying `odometer` but no hour-alias is
classified "Mileage" with header "Mileage". -/
theorem claim_C2_witness :
    (on_maintenance_loaded ⟨[], [], "Mileage", "Tracking"⟩
        [Rec.dict [("odometer", Value.vInt 42000)]]).tracking_type = "Mileage"
    ∧ (on_maintenance_loaded ⟨[], [], "Mileage", "Tracking"⟩
        [Rec.dict [("odometer", Value.vInt 42000)]]).header = "Mileage" :=
  (claim_C2_tracking_inference ⟨[], [], "Mileage", "Tracking"⟩
      (Rec.dict [("odometer", Value.vInt 42000)]) []).2.1
    (by decide) (by decide)

/-- Dispatch shape of `update_maintenance` on a valid selection of a stored
record with an id. -/
theorem update_maintenance_dispatch_eq (name tt : String) (stored : List Rec)
    (rows : List (List String)) (row : Nat) (srest : List Nat) (d : RawRecord)
    (h1 : row < stored.length)
    (h2 : stored.getD row (Rec.other Value.vNull) = Rec.dict d)
    (h3 : hasKey d "id" = true) :
    update_maintenance name tt stored rows (row :: srest) =
      Outcome.dispatch
        (maintBase ++ "?vehicle_name=" ++ normalizeVehicleName name
          ++ "&id=" ++ (rows.getD row []).getD 0 "")
        (update_maintenance_payload tt (rows.getD row [])) := by
  simp only [update_maintenance]
  rw [if_neg (Nat.not_le.mpr h1), h2]
  simp [h3]

/-- Dispatch shape of `update_purchase` on a valid selection of a stored
record with an id. -/
theorem update_purchase_dispatch_eq (name : String) (s : TableState)
    (row : Nat) (srest : List Nat) (d : RawRecord)
    (h1 : row < s.stored.length)
    (h2 : s.stored.getD row (Rec.other Value.vNull) = Rec.dict d)
    (h3 : hasKey d "id" = true) :
    update_purchase name s (row :: srest) =
      Outcome.dispatch
        (purchBase ++ "?vehicle_name=" ++ normalizeVehicleName name
          ++ "&id=" ++ (s.rows.getD row []).getD 0 "")
        (update_purchase_payload (s.rows.getD row [])) := by
  simp only [update_purchase]
  rw [if_neg (Nat.not_le.mpr h1), h2]
  simp [h3]

/-- Dispatch shape of `update_hidden_cost` on a valid selection of a stored
record with an id. -/
theorem update_hidden_cost_dispatch_eq (name : String) (s : TableState)
    (row : Nat) (srest : List Nat) (d : RawRecord)
    (h1 : row < s.stored.length)
    (h2 : s.stored.getD row (Rec.other Value.vNull) = Rec.dict d)
    (h3 : hasKey d "id" = true) :
    update_hidden_cost name s (row :: srest) =
      Outcome.dispatch
        (hiddenBase ++ "?vehicle_name=" ++ normalizeVehicleName name
          ++ "&id=" ++ (s.rows.getD row []).getD 0 "")
        (update_hidden_cost_payload (s.rows.getD row [])) := by
  simp only [update_hidden_cost]
  rw [if_neg (Nat.not_le.mpr h1), h2]
  simp [h3]

/-- Dispatch shape of `delete_record` on an accepted dialog for a selected
record with an id. -/
theorem delete_record_dispatch_eq (base vehicleName : String) (d : RawRecord)
    (hid : hasKey d "id" = true) :
    delete_record base vehicleName (some (Rec.dict d)) true =
      Outcome.dispatch
        (base ++ "?vehicle_name=" ++ normalizeVehicleName vehicleName
          ++ "&id=" ++ pyStr ((List.lookup "id" d).getD Value.vNull)) d := by
  have hne : recFalsy (Rec.dict d) = false := by
    cases d with
    | nil => simp [hasKey] at hid
    | cons a l => rfl
  unfold delete_record
  simp [hne, hid]

/-- C3 counterexample: the purchases GET fetch sends the vehicle's raw name
as the `vehicle_name` query parameter — for the vehicle named "My Car" the
parameter is "My Car", not the normalized "my_car" the claim requires for
all endpoint query parameters. -/
theorem claim_C3_counterexample :
    List.lookup "vehicle_name"
        (load_purchases_request (Rec.dict [("name", Value.vStr "My Car")])).params
      = some (Value.vStr "My Car")
    ∧ normalizeVehicleName "My Car" = "my_car"
    ∧ ("My Car" : String) ≠ "my_car" := by decide

/-- C3 (amended): the lowercase/underscore normalization of the vehicle
name is applied to the `vehicle_name` embedded in every mutation URL
(update, delete, create) and in the maintenance GET URL, but the GET fetches
for purchases and hidden costs send the raw, unnormalized name as their
`vehicle_name` parameter, and the maintenance GET additionally passes the
raw name in its `params` dict alongside the normalized URL. -/
theorem claim_C3_vehicle_name_normalization (name tt : String)
    (stored : List Rec) (rows : List (List String)) (row : Nat)
    (srest : List Nat) (d : RawRecord) (s : TableState)
    (h1 : row < stored.length)
    (h2 : stored.getD row (Rec.other Value.vNull) = Rec.dict d)
    (h3 : hasKey d "id" = true)
    (h4 : row < s.stored.length)
    (h5 : s.stored.getD row (Rec.other Value.vNull) = Rec.dict d) :
    (load_purchases_request (Rec.dict [("name", Value.vStr name)])).params
        = [("vehicle_name", Value.vStr name)]
    ∧ (load_hidden_costs_request (Rec.dict [("name", Value.vStr name)])).params
        = [("vehicle_name", Value.vStr name)]
    ∧ load_maintenance_request (Rec.dict [("name", Value.vStr name)])
        = some ⟨maintBase, [("vehicle_name", normalizeVehicleName name)],
                [("vehicle_name", Value.vStr name)]⟩
    ∧ update_maintenance name tt stored rows (row :: srest)
        = Outcome.dispatch
            (maintBase ++ "?vehicle_name=" ++ normalizeVehicleName name
              ++ "&id=" ++ (rows.getD row []).getD 0 "")
            (update_maintenance_payload tt (rows.getD row []))
    ∧ update_purchase name s (row :: srest)
        = Outcome.dispatch
            (purchBase ++ "?vehicle_name=" ++ normalizeVehicleName name
              ++ "&id=" ++ (s.rows.getD row []).getD 0 "")
            (update_purchase_payload (s.rows.getD row []))
    ∧ delete_maintenance name (some (Rec.dict d)) true
        = Outcome.dispatch
            (maintBase ++ "?vehicle_name=" ++ normalizeVehicleName name
              ++ "&id=" ++ pyStr ((List.lookup "id" d).getD Value.vNull)) d
    ∧ delete_hidden_cost name (some (Rec.dict d)) true
        = Outcome.dispatch
            (hiddenBase ++ "?vehicle_name=" ++ normalizeVehicleName name
              ++ "&id=" ++ pyStr ((List.lookup "id" d).getD Value.vNull)) d
    ∧ submit_hidden_cost name "insurance" "12.50" "" "01/01/2025"
        = Outcome.dispatch
            (hiddenBase ++ "?vehicle_name=" ++ normalizeVehicleName name)
            [("name", Value.vStr "insurance"), ("cost", Value.vStr "12.50"),
             ("description", Value.vStr ""), ("date", Value.vStr "01/01/2025")] := by
  refine ⟨rfl, rfl, rfl, ?_, ?_, ?_, ?_, ?_⟩
  · exact update_maintenance_dispatch_eq name tt stored rows row srest d h1 h2 h3
  · exact update_purchase_dispatch_eq name s row srest d h4 h5 h3
  · exact delete_record_dispatch_eq maintBase name d h3
  · exact delete_record_dispatch_eq hiddenBase name d h3
  · rfl

/-- Witness for C3: the concrete normalized mutation URL and raw GET
parameter for the vehicle named "My Car". -/
theorem claim_C3_witness :
    update_purchase "My Car"
        ⟨[["7", "Oil Filter", "01/02/2025", "Yes", "12.50", "NAPA"]],
         [Rec.dict [("id", Value.vInt 7)]]⟩ [0]
      = Outcome.dispatch
          ("http://theconeportal.net:5000/fleet_control/vehicle_purchases?vehicle_name=my_car&id=7")
          [("id", Value.vStr "7"), ("item", Value.vStr "Oil Filter"),
           ("date_purchased", Value.vStr "01/02/2025"),
           ("installed", Value.vStr "Yes"), ("cost", Value.vStr "12.50"),
           ("store", Value.vStr "NAPA")] :=
  (claim_C3_vehicle_name_normalization "My Car" "Mileage"
      [Rec.dict [("id", Value.vInt 7)]]
      [["7", "Oil Filter", "01/02/2025", "Yes", "12.50", "NAPA"]] 0 []
      [("id", Value.vInt 7)]
      ⟨[["7", "Oil Filter", "01/02/2025", "Yes", "12.50", "NAPA"]],
       [Rec.dict [("id", Value.vInt 7)]]⟩
      (by decide) (by decide) (by decide) (by decide) (by decide)).2.2.2.2.1

/-- C4 counterexample: the vehicle-list fetch worker emits the parsed JSON
payload unchanged — a single-object response is delivered as that object,
not coerced into a one-element list as the claim requires of every network
operation. -/
theorem claim_C4_counterexample :
    vehicleFetchResult (Json.nonList (Rec.dict [("name", Value.vStr "truck")]))
      ≠ Json.list [Rec.dict [("name", Value.vStr "truck")]] := by decide

/-- C4 (amended): the three sub-resource fetch workers (maintenance,
purchases, hidden costs) deliver a list, coercing a non-list JSON response
into a one-element list; the vehicle-list fetch worker delivers the parsed
payload unchanged, with no coercion. -/
theorem claim_C4_list_coercion (r : Rec) (xs : List Rec) :
    maintenanceFetchResult (Json.nonList r) = [r]
    ∧ maintenanceFetchResult (Json.list xs) = xs
    ∧ purchasesFetchResult (Json.nonList r) = [r]
    ∧ purchasesFetchResult (Json.list xs) = xs
    ∧ hiddenCostsFetchResult (Json.nonList r) = [r]
    ∧ hiddenCostsFetchResult (Json.list xs) = xs
    ∧ vehicleFetchResult (Json.nonList r) = Json.nonList r
    ∧ vehicleFetchResult (Json.list xs) = Json.list xs :=
  ⟨rfl, rfl, rfl, rfl, rfl, rfl, rfl, rfl⟩

/-- C5: the claim (and the spec's invariant) requires every fetch
completion — including an empty-list one — to replace the rendered rows and
the stored raw-record sequence together.  The code violates this: the
empty-list path of `on_purchases_loaded` (and of the other two handlers)
returns after rewriting the table but before the `self.purchases_data =
items` assignment, so the stored sequence keeps the previous fetch's
records while the table shows the single informational row.  Concretely,
after a populated state with two stored records receives an empty fetch,
the table has one row but the store still has the two stale records — the
1:1 row/record correspondence is broken, and a subsequent selection of the
informational row resolves to a stale record.  For a non-empty fetch the
replacement is atomic, as the last two conjuncts show. -/
theorem claim_C5_empty_fetch_stale_stored :
    (on_purchases_loaded
        ⟨[["7", "Oil Filter", "01/02/2025", "Yes", "12.50", "NAPA"],
          ["8", "Wiper", "01/03/2025", "No", "9.99", "AutoZone"]],
         [Rec.dict [("id", Value.vInt 7)], Rec.dict [("id", Value.vInt 8)]]⟩
        []).rows = [["No purchases"]]
    ∧ (on_purchases_loaded
        ⟨[["7", "Oil Filter", "01/02/2025", "Yes", "12.50", "NAPA"],
          ["8", "Wiper", "01/03/2025", "No", "9.99", "AutoZone"]],
         [Rec.dict [("id", Value.vInt 7)], Rec.dict [("id", Value.vInt 8)]]⟩
        []).stored = [Rec.dict [("id", Value.vInt 7)], Rec.dict [("id", Value.vInt 8)]]
    ∧ (on_purchases_loaded
        ⟨[["7", "Oil Filter", "01/02/2025", "Yes", "12.50", "NAPA"],
          ["8", "Wiper", "01/03/2025", "No", "9.99", "AutoZone"]],
         [Rec.dict [("id", Value.vInt 7)], Rec.dict [("id", Value.vInt 8)]]⟩
        []).rows.length ≠ (on_purchases_loaded
        ⟨[["7", "Oil Filter", "01/02/2025", "Yes", "12.50", "NAPA"],
          ["8", "Wiper", "01/03/2025", "No", "9.99", "AutoZone"]],
         [Rec.dict [("id", Value.vInt 7)], Rec.dict [("id", Value.vInt 8)]]⟩
        []).stored.length
    ∧ (on_maintenance_loaded
        ⟨[["7", "Oil change", "01/02/2025", "01/02/2025", "120000", "40", ""]],
         [Rec.dict [("id", Value.vInt 7)]], "Mileage", "Mileage"⟩
        []).stored = [Rec.dict [("id", Value.vInt 7)]]
    ∧ (∀ s first rest,
        (on_purchases_loaded s (first :: rest)).stored = first :: rest
        ∧ (on_purchases_loaded s (first :: rest)).rows
            = (first :: rest).map renderPurchRow)
    ∧ (∀ s first rest,
        (on_maintenance_loaded s (first :: rest)).stored = first :: rest
        ∧ (on_maintenance_loaded s (first :: rest)).rows
            = (first :: rest).map renderMaintRow) := by
  refine ⟨by decide, by decide, by decide, by decide, ?_, ?_⟩
  · intro s first rest
    exact ⟨rfl, rfl⟩
  · intro s first rest
    constructor <;> simp [on_maintenance_loaded]

/-- C6 counterexample: the claim says the record's id is embedded in the
target URL "and not in the body", but the dispatched update body is the
full cell mapping, whose first entry is the ID column's text — the body of
a concrete purchase update contains `id = "7"`. -/
theorem claim_C6_counterexample :
    (dispatchedBody (update_purchase "My Car"
        ⟨[["7", "Oil Filter", "01/02/2025", "Yes", "12.50", "NAPA"]],
         [Rec.dict [("id", Value.vInt 7)]]⟩ [0])).bind (List.lookup "id")
      = some (Value.vStr "7") := by decide

/-- C6 (amended): for every update dispatch on a selected row whose stored
record has an id, the JSON payload is exactly the flat mapping of the
currently rendered cell texts of that row — every value a string, taken
from the rendered cells and independent of the original raw record — and
the id (the ID cell's text) is embedded in the target URL as a query
parameter while also being present in the body under the `id` key. -/
theorem claim_C6_update_payload_from_cells (name tt : String)
    (stored : List Rec) (rows : List (List String)) (row : Nat)
    (srest : List Nat) (d : RawRecord) (cells : List String) (s : TableState)
    (h1 : row < stored.length)
    (h2 : stored.getD row (Rec.other Value.vNull) = Rec.dict d)
    (h3 : hasKey d "id" = true)
    (hc : rows.getD row [] = cells)
    (h4 : row < s.stored.length)
    (h5 : s.stored.getD row (Rec.other Value.vNull) = Rec.dict d)
    (hc2 : s.rows.getD row [] = cells) :
    update_maintenance name tt stored rows (row :: srest)
      = Outcome.dispatch
          (maintBase ++ "?vehicle_name=" ++ normalizeVehicleName name
            ++ "&id=" ++ cells.getD 0 "")
          [("id", Value.vStr (cells.getD 0 "")),
           ("job", Value.vStr (cells.getD 1 "")),
           ("date_started", Value.vStr (cells.getD 2 "")),
           ("date_completed", Value.vStr (cells.getD 3 "")),
           (if tt = "Hours" then "hours" else "mileage",
            Value.vStr (cells.getD 4 "")),
           ("cost", Value.vStr (cells.getD 5 "")),
           ("notes", Value.vStr (cells.getD 6 ""))]
    ∧ update_purchase name s (row :: srest)
      = Outcome.dispatch
          (purchBase ++ "?vehicle_name=" ++ normalizeVehicleName name
            ++ "&id=" ++ cells.getD 0 "")
          [("id", Value.vStr (cells.getD 0 "")),
           ("item", Value.vStr (cells.getD 1 "")),
           ("date_purchased", Value.vStr (cells.getD 2 "")),
           ("installed", Value.vStr (cells.getD 3 "")),
           ("cost", Value.vStr (cells.getD 4 "")),
           ("store", Value.vStr (cells.getD 5 ""))]
    ∧ List.lookup "id" (update_purchase_payload cells)
        = some (Value.vStr (cells.getD 0 ""))
    ∧ List.lookup "id" (update_maintenance_payload tt cells)
        = some (Value.vStr (cells.getD 0 "")) := by
  refine ⟨?_, ?_, rfl, rfl⟩
  · rw [← hc]
    exact update_maintenance_dispatch_eq name tt stored rows row srest d h1 h2 h3
  · rw [← hc2]
    exact update_purchase_dispatch_eq name s row srest d h4 h5 h3

/-- Witness for C6: a concrete maintenance update dispatch whose body is
the stringified cell texts and whose URL carries the id. -/
theorem claim_C6_witness :
    update_maintenance "My Car" "Hours"
        [Rec.dict [("id", Value.vInt 7)]]
        [["7", "Oil change", "01/02/2025", "01/03/2025", "120", "40", "ok"]] [0]
      = Outcome.dispatch
          ("http://theconeportal.net:5000/fleet_control/vehicle_maintenance?vehicle_name=my_car&id=7")
          [("id", Value.vStr "7"), ("job", Value.vStr "Oil change"),
           ("date_started", Value.vStr "01/02/2025"),
           ("date_completed", Value.vStr "01/03/2025"),
           ("hours", Value.vStr "120"), ("cost", Value.vStr "40"),
           ("notes", Value.vStr "ok")] :=
  (claim_C6_update_payload_from_cells "My Car" "Hours"
      [Rec.dict [("id", Value.vInt 7)]]
      [["7", "Oil change", "01/02/2025", "01/03/2025", "120", "40", "ok"]] 0 []
      [("id", Value.vInt 7)]
      ["7", "Oil change", "01/02/2025", "01/03/2025", "120", "40", "ok"]
      ⟨[["7", "Oil change", "01/02/2025", "01/03/2025", "120", "40", "ok"]],
       [Rec.dict [("id", Value.vInt 7)]]⟩
      (by decide) (by decide) (by decide) (by decide) (by decide) (by decide)
      (by decide)).1

/-- C7 counterexample: the one form that enforces client-side numeric
validation of the cost field — the add-hidden-cost form — rejects the
literal string "FREE" with a validation warning instead of accepting it,
and nothing is dispatched. -/
theorem claim_C7_counterexample :
    submit_hidden_cost "truck" "Insurance" "FREE" "annual premium" "01/01/2025"
      = Outcome.warned "Cost must be a valid number" := by decide

/-- C7 (amended): where numeric cost validation is enforced (the
add-hidden-cost form), the literal string "FREE" is rejected as non-numeric
and the submission is blocked; the literal "FREE" proceeds to dispatch only
in the add-maintenance form, whose FREE checkbox writes it into the cost
field and which performs no numeric validation of cost at all. -/
theorem claim_C7_free_cost (vehicleName name description date : String)
    (hn : pyStrip name ≠ "") :
    submit_hidden_cost vehicleName name "FREE" description date
        = Outcome.warned "Cost must be a valid number"
    ∧ on_free_checkbox_changed 2 = "FREE"
    ∧ isDispatched (submit_maintenance (Rec.dict [("name", Value.vStr "truck")])
        "Mileage" "Oil change" "01/01/2025" "01/02/2025" "120000"
        (on_free_checkbox_changed 2) "") = true
    ∧ (dispatchedBody (submit_maintenance (Rec.dict [("name", Value.vStr "truck")])
        "Mileage" "Oil change" "01/01/2025" "01/02/2025" "120000"
        (on_free_checkbox_changed 2) "")).bind (List.lookup "cost")
        = some (Value.vStr "FREE") := by
  refine ⟨?_, by decide, by decide, by decide⟩
  · unfold submit_hidden_cost
    rw [if_neg hn]
    rfl

/-- Witness for C7: concrete hidden-cost submission with cost "FREE" is
blocked. -/
theorem claim_C7_witness :
    submit_hidden_cost "truck" "Oil change" "FREE" "shop comp" "02/02/2025"
      = Outcome.warned "Cost must be a valid number" :=
  (claim_C7_free_cost "truck" "Oil change" "shop comp" "02/02/2025"
    (by decide)).1

/-- A delete attempt on a selected mapping that lacks an `id` key always
ends in a warning and never dispatches, whatever the resource base URL. -/
theorem delete_record_no_id_blocked (base vehicleName : String)
    (d : RawRecord) (accepted : Bool) (h : hasKey d "id" = false) :
    isWarned (delete_record base vehicleName (some (Rec.dict d)) accepted) = true
    ∧ isDispatched (delete_record base vehicleName (some (Rec.dict d)) accepted)
        = false := by
  unfold delete_record
  by_cases hf : recFalsy (Rec.dict d) = true
  · simp [hf, isWarned, isDispatched]
  · simp only [Bool.not_eq_true] at hf
    simp [hf, h, isWarned, isDispatched]

/-- C8: for every delete attempt (maintenance, purchase, hidden cost) on a
selected record that lacks an `id` field, the operation is blocked
client-side with a warning and no DELETE request is dispatched (no delete
worker is started, so all state is left unchanged), regardless of how the
confirmation dialog would answer. -/
theorem claim_C8_delete_without_id_blocked (vehicleName : String)
    (d : RawRecord) (accepted : Bool) (h : hasKey d "id" = false) :
    isWarned (delete_maintenance vehicleName (some (Rec.dict d)) accepted) = true
    ∧ isDispatched (delete_maintenance vehicleName (some (Rec.dict d)) accepted)
        = false
    ∧ isWarned (delete_purchase vehicleName (some (Rec.dict d)) accepted) = true
    ∧ isDispatched (delete_purchase vehicleName (some (Rec.dict d)) accepted)
        = false
    ∧ isWarned (delete_hidden_cost vehicleName (some (Rec.dict d)) accepted) = true
    ∧ isDispatched (delete_hidden_cost vehicleName (some (Rec.dict d)) accepted)
        = false := by
  have hm := delete_record_no_id_blocked maintBase vehicleName d accepted h
  have hp := delete_record_no_id_blocked purchBase vehicleName d accepted h
  have hh := delete_record_no_id_blocked hiddenBase vehicleName d accepted h
  exact ⟨hm.1, hm.2, hp.1, hp.2, hh.1, hh.2⟩

/-- Witness for C8: a selected maintenance record without an id, with the
dialog answering yes, is still blocked with a warning and nothing is sent. -/
theorem claim_C8_witness :
    isWarned (delete_maintenance "truck"
        (some (Rec.dict [("job", Value.vStr "Oil change")])) true) = true
    ∧ isDispatched (delete_maintenance "truck"
        (some (Rec.dict [("job", Value.vStr "Oil change")])) true) = false :=
  ⟨(claim_C8_delete_without_id_blocked "truck"
      [("job", Value.vStr "Oil change")] true (by decide)).1,
   (claim_C8_delete_without_id_blocked "truck"
      [("job", Value.vStr "Oil change")] true (by decide)).2.1⟩

/-- C9: every non-mapping element of a fetched record list is rendered as
if it were an empty mapping: each canonical field takes the default empty
string, in all three tables, with no crash. -/
theorem claim_C9_non_mapping_renders_defaults (v : Value) :
    renderMaintRow (Rec.other v) = ["", "", "", "", "", "", ""]
    ∧ renderPurchRow (Rec.other v) = ["", "", "", "", "", ""]
    ∧ renderHiddenCostRow (Rec.other v) = ["", "", "", "", ""] :=
  ⟨rfl, rfl, rfl⟩

/-- C10: the Tracking cell of every rendered maintenance row is the
hour-alias value or-else the mileage-alias value under Python truthiness:
whenever the hour-alias value is falsy (0, empty string, absent or None)
the mileage-alias value is displayed.  In particular a record with hours 0
and a mileage key shows the mileage value, even though the presence of the
`hours` key classifies the list as "Hours". -/
theorem claim_C10_tracking_cell_truthiness (d : RawRecord) :
    (truthy (get_any d hourAliasKeys) = false →
      (renderMaintRow (Rec.dict d)).getD 4 ""
        = pyStr (get_any d mileageAliasKeys))
    ∧ (truthy (get_any d hourAliasKeys) = true →
      (renderMaintRow (Rec.dict d)).getD 4 ""
        = pyStr (get_any d hourAliasKeys))
    ∧ ((on_maintenance_loaded ⟨[], [], "Mileage", "Tracking"⟩
          [Rec.dict [("hours", Value.vInt 0), ("mileage", Value.vInt 120000),
                     ("job", Value.vStr "belt")]]).rows.getD 0 []).getD 4 ""
        = "120000"
    ∧ (on_maintenance_loaded ⟨[], [], "Mileage", "Tracking"⟩
          [Rec.dict [("hours", Value.vInt 0), ("mileage", Value.vInt 120000),
                     ("job", Value.vStr "belt")]]).tracking_type = "Hours" := by
  refine ⟨?_, ?_, by decide, by decide⟩
  · intro h
    simp [renderMaintRow, asDict, h]
  · intro h
    simp [renderMaintRow, asDict, h]

/-- Witness for C10: a record with hours 0 and mileage 120000 displays the
mileage value in the Tracking cell. -/
theorem claim_C10_witness :
    (renderMaintRow (Rec.dict
        [("hours", Value.vInt 0), ("mileage", Value.vInt 120000)])).getD 4 ""
      = pyStr (get_any [("hours", Value.vInt 0), ("mileage", Value.vInt 120000)]
          mileageAliasKeys) :=
  (claim_C10_tracking_cell_truthiness
      [("hours", Value.vInt 0), ("mileage", Value.vInt 120000)]).1 (by decide)
